import Mathlib

/-!
Shallow embedding of `src/app.py` (Find_the_right_glass_frame).

Conventions of the embedding:
* 8-bit image samples are modelled as `ℤ` (numpy addition of a `uint8`
  image with a float/int mask promotes to float64 and does NOT clamp,
  so results can leave the 0..255 range; `ℤ` records that faithfully).
* probability maps (network outputs) are modelled as `ℚ` (floats as
  exact rationals; the comparisons `> 0.5` the code performs are exact
  on the values the claims exercise).
* a numpy `H×W×3` image is a `List` of rows of `(c0, c1, c2)` pixels,
  row-major, channel index 1 being the green channel (cv2 uses BGR).
  numpy arrays are rectangular; theorems carry the corresponding
  shape hypotheses where they matter.
* in-place mutation (cv2.circle / cv2.putText draw into the caller's
  buffer; the GLASS branch assigns `image[i, j] = ...` directly) is
  modelled by returning, next to the function result, the final
  contents of the caller's image buffer.
* cv2 primitives whose pixel output is unspecified library behaviour
  (putText font rasterisation, circle rasterisation, resize
  interpolation, imread decoding) are parameters of the dispatcher;
  the draw calls the code issues are recorded as `DrawCmd` values.
* Python exceptions (IndexError from list/array subscripts, TypeError
  from operating on a wrongly-shaped output) become `RenderErr`.
-/

/-- One BGR pixel: channel 0, channel 1 (green), channel 2. -/
abbrev Pix := ℤ × ℤ × ℤ

/-- An H×W×3 image, a list of rows of pixels. -/
abbrev Image := List (List Pix)

/-- from app.py line 9. -/
def CAR_COLORS : List String := ["white", "gray", "yellow", "red", "green", "blue", "black"]

/-- from app.py line 10. -/
def CAR_TYPES : List String := ["car", "bus", "truck", "van"]

/-- from app.py line 11. -/
def GENDER_TYPES : List String := ["female", "male"]

/-- Errors raised by the Python code: `indexError` models IndexError
(list subscript out of range, numpy index out of bounds), `typeError`
models the failures of applying a branch to a wrongly-shaped output
(numpy broadcast ValueError and similar). -/
inductive RenderErr
  | indexError
  | typeError
deriving DecidableEq

/-- Python list subscript semantics: `xs[i]` accepts `-len ≤ i < len`,
negative indices counting from the end, and raises IndexError (here
`none`) otherwise. -/
def pyListGet {α : Type} (xs : List α) (i : ℤ) : Option α :=
  if 0 ≤ i ∧ i < xs.length then xs.get? i.toNat
  else if -(xs.length : ℤ) ≤ i ∧ i < 0 then xs.get? (i + xs.length).toNat
  else none

/-- Python `int((a + b)/2 - c/2)` for integers `a`, `b`, `c`: the exact
rational value is `(a + b - c)/2`, and `int()` truncates toward zero,
which is the truncating integer division `Int.tdiv`. -/
def pyIntHalfDiff (a b c : ℤ) : ℤ := Int.tdiv (a + b - c) 2

/-- Bounded search for the integer square root: largest `k ≤ fuel` with
`k * k ≤ n` (0 when none). -/
def isqrtGo : ℕ → ℕ → ℕ
  | 0, _ => 0
  | k + 1, n => if (k + 1) * (k + 1) ≤ n then k + 1 else isqrtGo k n

/-- Integer square root, `⌊√n⌋`: models Python `int(n ** 0.5)` for a
nonnegative integer radicand (proved equal to `Nat.sqrt` below). -/
def isqrt (n : ℕ) : ℕ := isqrtGo n n

/-- Element of a 2D integer map at row `i`, column `j` (0 outside). -/
def eltZ (m : List (List ℤ)) (i j : ℕ) : ℤ := (m.getD i []).getD j 0

/-- Element of a 2D rational map at row `i`, column `j` (0 outside). -/
def eltQ (m : List (List ℚ)) (i j : ℕ) : ℚ := (m.getD i []).getD j 0

/-- Pixel of an image at row `i`, column `j` ((0,0,0) outside). -/
def eltP (m : Image) (i j : ℕ) : Pix := (m.getD i []).getD j (0, 0, 0)

/-- Spatial dimensions of a 2D list: row count via list length, per-row
widths; two numpy arrays are addable exactly when these agree. -/
def dimsOf {α : Type} (m : List (List α)) : List ℕ := m.map (fun r => r.length)

/-- app.py lines 67-69 and 79: `np.where(x > 0.5, 255, 0)` applied to a
2D probability map, elementwise (the cutoff is kept as a parameter; the
code always passes 0.5). -/
def thresholdMap (cutoff : ℚ) (m : List (List ℚ)) : List (List ℤ) :=
  m.map (fun row => row.map (fun v => if v > cutoff then (255 : ℤ) else 0))

/-- Elementwise sum of two equally-shaped 2D maps (numpy `+`). -/
def add2 (a b : List (List ℤ)) : List (List ℤ) :=
  List.zipWith (List.zipWith (fun x y => x + y)) a b

/-- app.py line 71: `np.sum(output, axis=0)` over a stack of 2D maps.
(The empty stack is returned as the empty map; the code only meets
nonempty stacks.) -/
def sumStack : List (List (List ℤ)) → List (List ℤ)
  | [] => []
  | h :: t => t.foldl add2 h

/-- app.py lines 64-71, the POSE decoding: drop the last channel of the
stack (`output[:-1]`), threshold every remaining channel at 0.5, then
sum elementwise across channels. -/
def poseProcess (stack : List (List (List ℚ))) : List (List ℤ) :=
  sumStack ((stack.dropLast).map (thresholdMap (mkRat 1 2)))

/-- app.py line 79, the TEXT decoding: threshold channel index 1 at 0.5;
`output[1]` raises IndexError (`none`) when the stack has < 2 channels. -/
def textProcess (stack : List (List (List ℚ))) : Option (List (List ℤ)) :=
  match stack.get? 1 with
  | none => none
  | some ch => some (thresholdMap (mkRat 1 2) ch)

/-- app.py lines 46-56, `get_mask`: stack an empty channel, the
processed output, and an empty channel into a green-emphasis mask. -/
def get_mask (processed_output : List (List ℤ)) : Image :=
  processed_output.map (fun row => row.map (fun v => ((0 : ℤ), v, (0 : ℤ))))

/-- numpy addition of two equally-shaped images, channelwise, with no
clamping (uint8 + float64 promotes, values may exceed 255). -/
def addImage (a b : Image) : Image :=
  List.zipWith (List.zipWith (fun p q : Pix => (p.1 + q.1, p.2.1 + q.2.1, p.2.2 + q.2.2))) a b

/-- app.py lines 73-75 / 81-83: combine the image with the green mask
built from a processed output (`image + get_mask(output)`). -/
def composite (image : Image) (processed_output : List (List ℤ)) : Image :=
  addImage image (get_mask processed_output)

/-- app.py lines 87-96 as a pure lookup (spec name `decodeCarMeta`):
`CAR_COLORS[c]` then `CAR_TYPES[t]`, Python list subscripts. -/
def decodeCarMeta (c t : ℤ) : Except RenderErr (String × String) :=
  match pyListGet CAR_COLORS c with
  | none => Except.error RenderErr.indexError
  | some color =>
    match pyListGet CAR_TYPES t with
    | none => Except.error RenderErr.indexError
    | some car_type => Except.ok (color, car_type)

/-- app.py lines 129-131 as a pure lookup (spec name `decodeGender`):
the age is passed through, `GENDER_TYPES[g]` is a Python list subscript. -/
def decodeGender (age g : ℤ) : Except RenderErr (ℤ × String) :=
  match pyListGet GENDER_TYPES g with
  | none => Except.error RenderErr.indexError
  | some gender_type => Except.ok (age, gender_type)

/-- One call to a cv2 drawing primitive, as issued by the code:
`circle center radius color thickness` and
`text msg org fontScale color thickness`. -/
inductive DrawCmd
  | circle (center : ℤ × ℤ) (radius : ℤ) (color : Pix) (thickness : ℤ)
  | text (msg : String) (org : ℤ × ℤ) (fontScale : ℚ) (color : Pix) (thickness : ℤ)
deriving DecidableEq

/-- app.py lines 98-112, the FACIAL loop `for i in range(0, len(output), 2)`:
for each complete (x, y) pair, a filled circle of radius 4 in color
(255,0,0) and a text label "p" + str(i/2) at the same point with font
scale 0.7, color (255,255,255), lineType 2; when a lone coordinate
remains (odd length), `output[i+1]` raises IndexError after the
commands of the preceding complete pairs have already been drawn.
Returns the commands issued in order and whether IndexError was raised. -/
def facialStep : List ℤ → ℕ → List DrawCmd × Bool
  | [], _ => ([], false)
  | [_], _ => ([], true)
  | x :: y :: rest, k =>
    let r := facialStep rest (k + 1)
    (DrawCmd.circle (x, y) 4 (255, 0, 0) (-1) ::
      DrawCmd.text ("p" ++ toString k) (x, y) (mkRat 7 10) (255, 255, 255) 2 :: r.1, r.2)

/-- One BGRA pixel of the overlay asset (4th channel = alpha). -/
structure GPix where
  c0 : ℤ
  c1 : ℤ
  c2 : ℤ
  alpha : ℤ
deriving DecidableEq

/-- `glasses[i,j][:-1]`: the color channels of an asset pixel. -/
def GPix.rgb (p : GPix) : Pix := (p.c0, p.c1, p.c2)

/-- An overlay asset with alpha channel, as rows of BGRA pixels. -/
abbrev Glasses := List (List GPix)

/-- Width (`shape[1]`) of a rectangular 2D array. -/
def widthOf {α : Type} (m : List (List α)) : ℕ := (m.headD []).length

/-- numpy index resolution along one axis of size `n`: `0 ≤ k < n` is
itself, `-n ≤ k < 0` wraps to `n + k`, anything else raises IndexError. -/
def npIndex (n : ℕ) (k : ℤ) : Option ℕ :=
  if 0 ≤ k ∧ k < n then some k.toNat
  else if -(n : ℤ) ≤ k ∧ k < 0 then some (k + n).toNat
  else none

/-- numpy assignment `image[ri, ci] = p` with wrapping of negative
indices and IndexError (`none`) out of range. -/
def imgWrite (img : Image) (ri ci : ℤ) (p : Pix) : Option Image :=
  match npIndex img.length ri with
  | none => none
  | some r =>
    let row := img.getD r []
    match npIndex row.length ci with
    | none => none
    | some c => some (img.set r (row.set c p))

/-- Inner loop of app.py lines 122-125 over one asset row: `ri` is the
destination row index `i + translation_vertical`; for each asset pixel
with nonzero alpha, assign its color channels into the image; an
out-of-range assignment raises IndexError, aborting with the writes so
far already applied. -/
def overlayRow : List GPix → ℕ → ℤ → ℤ → Image → Image × Bool
  | [], _, _, _, img => (img, false)
  | g :: rest, j, ri, th, img =>
    if g.alpha ≠ 0 then
      match imgWrite img ri ((j : ℤ) + th) g.rgb with
      | none => (img, true)
      | some img2 => overlayRow rest (j + 1) ri th img2
    else overlayRow rest (j + 1) ri th img

/-- Outer loop of app.py lines 122-125 over the asset rows. -/
def overlayRows : Glasses → ℕ → ℤ → ℤ → Image → Image × Bool
  | [], _, _, _, img => (img, false)
  | row :: rest, i, tv, th, img =>
    match overlayRow row 0 ((i : ℤ) + tv) th img with
    | (img2, true) => (img2, true)
    | (img2, false) => overlayRows rest (i + 1) tv th img2

/-- app.py lines 122-125: the full overlay write loop. -/
def overlayLoop (glasses : Glasses) (tv th : ℤ) (img : Image) : Image × Bool :=
  overlayRows glasses 0 tv th img

/-- app.py line 117: the squared scale,
`(output[36]-output[68])**2 + (output[37]-output[69])**2`; the code's
scale is its real square root. -/
def glass_scale_sq (xs : List ℤ) : ℤ :=
  (xs.getD 36 0 - xs.getD 68 0) ^ 2 + (xs.getD 37 0 - xs.getD 69 0) ^ 2

/-- The decoded output handed to the dispatcher: a stack of 2D float
maps (POSE / TEXT) or a flat numeric list (the other branches). -/
inductive RawOut
  | maps (stack : List (List (List ℚ)))
  | nums (xs : List ℤ)

/-- Outcome of one `create_output_image` call: the returned value (or
the exception), the final contents of the caller's image buffer, and
whether the unknown-model-type warning was printed. -/
structure RenderResult where
  ret : Except RenderErr Image
  buf : Image
  warned : Bool

/-- app.py lines 59-141, `create_output_image`.

Parameters standing for cv2 library primitives (out-of-scope drawing
and I/O, per the spec): `draw` applies one cv2 draw call in place to
the buffer; `loadAsset` is `cv2.imread(path, -1)`; `resize glasses w h`
is `cv2.resize(glasses, (w, h))` (cv2 takes (width, height)).

Faithfulness notes: `int(scale)` with `scale = sqrt(s)` for the
integer `s = glass_scale_sq` is `isqrt s`, and
`int(scale * shape0 / shape1)` is `isqrt (s * shape0^2) / shape1`
(floor of the exact real value; float rounding is not modelled).
The unused `image_copy = np.copy(image)` of line 115 has no observable
effect and is recorded only by this comment. A GLASS output shorter
than 70 entries raises IndexError at one of the subscripts of lines
117-120, before any write. numpy addition of mismatched shapes
(ValueError) is mapped to `typeError`, as is handing a branch the
wrong kind of output. -/
def create_output_image (draw : Image → DrawCmd → Image) (loadAsset : String → Glasses)
    (resize : Glasses → ℕ → ℕ → Glasses) (model_type : String) (image : Image)
    (glass : String) (output : RawOut) : RenderResult :=
  if model_type = "POSE" then
    match output with
    | RawOut.maps stack =>
      let processed := poseProcess stack
      if dimsOf image = dimsOf processed then
        ⟨Except.ok (composite image processed), image, false⟩
      else ⟨Except.error RenderErr.typeError, image, false⟩
    | RawOut.nums _ => ⟨Except.error RenderErr.typeError, image, false⟩
  else if model_type = "TEXT" then
    match output with
    | RawOut.maps stack =>
      match textProcess stack with
      | none => ⟨Except.error RenderErr.indexError, image, false⟩
      | some processed =>
        if dimsOf image = dimsOf processed then
          ⟨Except.ok (composite image processed), image, false⟩
        else ⟨Except.error RenderErr.typeError, image, false⟩
    | RawOut.nums _ => ⟨Except.error RenderErr.typeError, image, false⟩
  else if model_type = "CAR_META" then
    match output with
    | RawOut.nums xs =>
      match xs.get? 0, xs.get? 1 with
      | some c0, some c1 =>
        match decodeCarMeta c0 c1 with
        | Except.error e => ⟨Except.error e, image, false⟩
        | Except.ok (color, car_type) =>
          let scaler : ℕ := max (image.length / 1000) 1
          let msg := "Color: " ++ color ++ ", Type: " ++ car_type
          let img2 := draw image (DrawCmd.text msg ((50 * scaler : ℤ), (100 * scaler : ℤ))
            ((2 * scaler : ℚ)) (0, 255, 0) ((3 * scaler : ℤ)))
          ⟨Except.ok img2, img2, false⟩
      | _, _ => ⟨Except.error RenderErr.indexError, image, false⟩
    | RawOut.maps _ => ⟨Except.error RenderErr.typeError, image, false⟩
  else if model_type = "FACIAL" then
    match output with
    | RawOut.nums xs =>
      let r := facialStep xs 0
      let img2 := r.1.foldl draw image
      ⟨if r.2 then Except.error RenderErr.indexError else Except.ok img2, img2, false⟩
    | RawOut.maps _ => ⟨Except.error RenderErr.typeError, image, false⟩
  else if model_type = "GLASS" then
    match output with
    | RawOut.nums xs =>
      if 69 < xs.length then
        let glasses := loadAsset glass
        let sNat := (glass_scale_sq xs).toNat
        let resized := resize glasses (isqrt sNat)
          (isqrt (sNat * glasses.length ^ 2) / widthOf glasses)
        let tv := pyIntHalfDiff (xs.getD 1 0) (xs.getD 5 0) (widthOf resized : ℤ)
        let th := pyIntHalfDiff (xs.getD 0 0) (xs.getD 4 0) (resized.length : ℤ)
        let r := overlayLoop resized tv th image
        ⟨if r.2 then Except.error RenderErr.indexError else Except.ok r.1, r.1, false⟩
      else ⟨Except.error RenderErr.indexError, image, false⟩
    | RawOut.maps _ => ⟨Except.error RenderErr.typeError, image, false⟩
  else if model_type = "GENDER" then
    match output with
    | RawOut.nums xs =>
      match xs.get? 0, xs.get? 1 with
      | some age, some g =>
        match decodeGender age g with
        | Except.error e => ⟨Except.error e, image, false⟩
        | Except.ok (a, gender_type) =>
          let scaler : ℕ := max (image.length / 5000) 1
          let msg := toString a ++ "," ++ gender_type ++ " "
          let img2 := draw image (DrawCmd.text msg (20, (image.length : ℤ) - 10)
            ((2 * scaler : ℚ)) (0, 255, 0) ((3 * scaler : ℤ)))
          ⟨Except.ok img2, img2, false⟩
      | _, _ => ⟨Except.error RenderErr.indexError, image, false⟩
    | RawOut.maps _ => ⟨Except.error RenderErr.typeError, image, false⟩
  else ⟨Except.ok image, image, true⟩

/-- app.py lines 171-177: the orchestrator wraps `create_output_image`
in a bare `try/except`; on success the returned image is saved, on ANY
exception the name `image` — the caller's buffer, in whatever state the
failed render left it — is saved instead, and only "Error" is printed.
Returns (saved image, success flag). -/
def perform_inference_render (r : RenderResult) : Image × Bool :=
  match r.ret with
  | Except.ok img => (img, true)
  | Except.error _ => (r.buf, false)

deriving instance DecidableEq for Except

/-- Both rows and one entry of a row are in range. -/
def inB {α : Type} (m : List (List α)) (i j : ℕ) : Prop :=
  i < m.length ∧ j < (m.getD i []).length

instance {α : Type} (m : List (List α)) (i j : ℕ) : Decidable (inB m i j) := by
  unfold inB
  infer_instance

/-- The model-type tags the dispatcher compares against, as named
constants for use in concrete scenarios. -/
def MT_POSE : String := "POSE"

/-- Tag constant, see `MT_POSE`. -/
def MT_TEXT : String := "TEXT"

/-- Tag constant, see `MT_POSE`. -/
def MT_CAR_META : String := "CAR_META"

/-- Tag constant, see `MT_POSE`. -/
def MT_FACIAL : String := "FACIAL"

/-- Tag constant, see `MT_POSE`. -/
def MT_GLASS : String := "GLASS"

/-- Tag constant, see `MT_POSE`. -/
def MT_GENDER : String := "GENDER"

/-- A tag outside the dispatch table. -/
def MT_SCENE : String := "SCENE"

/-- The lowercase spelling of POSE, not matched by the dispatcher. -/
def MT_pose_lower : String := "pose"

/-- A concrete stand-in for the cv2 drawing primitives: leaves the
buffer untouched (any function of this type is admissible; the claims
that depend on what drawing does quantify over it). -/
def drawNoop : Image → DrawCmd → Image := fun img _ => img

/-- A concrete stand-in for `cv2.resize` used in scenarios where the
requested size equals the asset's own size (resizing to the same size
returns the same pixels). -/
def resizeId : Glasses → ℕ → ℕ → Glasses := fun g _ _ => g

/-- A concrete stand-in for `cv2.imread`: the asset at the path. -/
def loadConst (g : Glasses) : String → Glasses := fun _ => g

/-- A concrete asset path. -/
def glassPath : String := "glasses.png"

/-- C1 scenario: a 1×2 probability map with a strictly-above-cutoff
value and an exactly-at-cutoff value. -/
def demoMap : List (List ℚ) := [[mkRat 3 4, mkRat 1 2]]

/-- C1 scenario: a 3-channel stack of 1×2 maps (last channel is the
auxiliary one the POSE branch drops). -/
def demoStack : List (List (List ℚ)) :=
  [[[mkRat 6 10, mkRat 1 2]], [[mkRat 7 10, mkRat 7 10]], [[mkRat 2 10, mkRat 9 10]]]

/-- C2 scenario: a 1×2 base image. -/
def imageC2 : Image := [[(1, 2, 3), (4, 5, 6)]]

/-- C2 scenario: a 1×2 binary thresholded map. -/
def poC2 : List (List ℤ) := [[0, 255]]

/-- C6 scenario: 70 landmark coordinates with point36 = (0,0) (flat
indices 36,37) and point68 = (3,4) (flat indices 68,69). -/
def demoOut36 : List ℤ := ((List.replicate 70 (0 : ℤ)).set 68 3).set 69 4

/-- C7 scenario: a 1×2 overlay asset whose first pixel is opaque. -/
def glassesC7 : Glasses := [[⟨10, 20, 30, 1⟩, ⟨0, 0, 0, 0⟩]]

/-- C7 scenario: landmarks with point36 = (2,0), point68 = (0,0)
(scale 2, so the 1×2 asset is resized to its own size) and placement
landmarks 0,4 = 1 and 1,5 = 0, putting the asset one row above the top
edge of the image (translation_vertical = -1). -/
def outputC7 : List ℤ := (((List.replicate 70 (0 : ℤ)).set 0 1).set 4 1).set 36 2

/-- C7 scenario: a 2×2 all-zero base image. -/
def imageC7 : Image := [[(0, 0, 0), (0, 0, 0)], [(0, 0, 0), (0, 0, 0)]]

/-- C8 scenario: a 1×2 overlay asset, both pixels opaque. -/
def glassesC8 : Glasses := [[⟨10, 20, 30, 1⟩, ⟨1, 2, 3, 1⟩]]

/-- Scenario for C8/C9: landmarks with scale 2 and placement landmarks
0,1,4,5 all equal 1, centring the asset at the image origin
(translation_vertical = translation_horizontal = 0). -/
def outputGlassCentered : List ℤ :=
  (((((List.replicate 70 (0 : ℤ)).set 0 1).set 4 1).set 36 2).set 1 1).set 5 1

/-- C8 scenario: a 1×1 base image (too small for the 1×2 asset). -/
def imageC8 : Image := [[(0, 0, 0)]]

/-- C9 scenario: a 1×2 overlay asset whose first pixel is opaque. -/
def glassesC9 : Glasses := [[⟨9, 8, 7, 2⟩, ⟨0, 0, 0, 0⟩]]

/-- C9 scenario: a 1×2 base image. -/
def imageC9 : Image := [[(0, 0, 0), (5, 5, 5)]]

lemma getD_map_of_lt {α β : Type} (f : α → β) (l : List α) (i : ℕ) (h : i < l.length)
    (da : α) (db : β) : (l.map f).getD i db = f (l.getD i da) := by
  induction l generalizing i with
  | nil => simp at h
  | cons a t ih =>
    cases i with
    | zero => simp
    | succ n =>
      simp only [List.map_cons, List.getD_cons_succ]
      exact ih n (by simpa using h)

lemma getD_zipWith_of_lt {α β γ : Type} (f : α → β → γ) (a : List α) (b : List β) (i : ℕ)
    (ha : i < a.length) (hb : i < b.length) (da : α) (db : β) (dc : γ) :
    (List.zipWith f a b).getD i dc = f (a.getD i da) (b.getD i db) := by
  induction a generalizing b i with
  | nil => simp at ha
  | cons x t ih =>
    cases b with
    | nil => simp at hb
    | cons y s =>
      cases i with
      | zero => simp
      | succ n =>
        simp only [List.zipWith_cons_cons, List.getD_cons_succ]
        exact ih s n (by simpa using ha) (by simpa using hb)

lemma pyListGet_eq_none_iff {α : Type} (xs : List α) (i : ℤ) :
    pyListGet xs i = none ↔ (i < -(xs.length : ℤ) ∨ (xs.length : ℤ) ≤ i) := by
  unfold pyListGet
  split_ifs with h1 h2
  · rw [List.get?_eq_get (by omega : i.toNat < xs.length)]
    simp
    omega
  · rw [List.get?_eq_get (by omega : (i + xs.length).toNat < xs.length)]
    simp
    omega
  · simp
    omega

/-- C3: for every input image and every model-type tag that is not one
of POSE, TEXT, CAR_META, FACIAL, GLASS, GENDER, the dispatcher logs the
unknown-type warning and returns the input image unchanged (and leaves
the caller's buffer unchanged); this is a normal return, not an error. -/
theorem spec_C3 (draw : Image → DrawCmd → Image) (loadAsset : String → Glasses)
    (resize : Glasses → ℕ → ℕ → Glasses) (tag : String) (image : Image) (glass : String)
    (output : RawOut)
    (h : tag ∉ ["POSE", "TEXT", "CAR_META", "FACIAL", "GLASS", "GENDER"]) :
    create_output_image draw loadAsset resize tag image glass output =
      ⟨Except.ok image, image, true⟩ := by
  simp only [List.mem_cons, List.not_mem_nil, or_false, not_or] at h
  obtain ⟨h1, h2, h3, h4, h5, h6⟩ := h
  simp [create_output_image, h1, h2, h3, h4, h5, h6]

/-- C3 witness: the tag "SCENE" is passed through unchanged. -/
theorem spec_C3_witness :
    create_output_image drawNoop (loadConst []) resizeId MT_SCENE imageC2 glassPath
      (RawOut.nums []) = ⟨Except.ok imageC2, imageC2, true⟩ :=
  spec_C3 drawNoop (loadConst []) resizeId MT_SCENE imageC2 glassPath (RawOut.nums [])
    (by decide)

/-- C10: dispatch is exact, case-sensitive string comparison — every
tag not character-for-character equal to one of the six known tags
takes the unknown-type fallback: the call returns the image unchanged
and prints the warning. -/
theorem spec_C10 (draw : Image → DrawCmd → Image) (loadAsset : String → Glasses)
    (resize : Glasses → ℕ → ℕ → Glasses) (tag : String) (image : Image) (glass : String)
    (output : RawOut) (h1 : tag ≠ "POSE") (h2 : tag ≠ "TEXT") (h3 : tag ≠ "CAR_META")
    (h4 : tag ≠ "FACIAL") (h5 : tag ≠ "GLASS") (h6 : tag ≠ "GENDER") :
    (create_output_image draw loadAsset resize tag image glass output).ret = Except.ok image ∧
    (create_output_image draw loadAsset resize tag image glass output).warned = true := by
  simp [create_output_image, h1, h2, h3, h4, h5, h6]

/-- C10 witness: the lowercase tag "pose" differs from "POSE" and is
passed through with a warning. -/
theorem spec_C10_witness :
    (create_output_image drawNoop (loadConst []) resizeId MT_pose_lower imageC2 glassPath
      (RawOut.nums [])).ret = Except.ok imageC2 ∧
    (create_output_image drawNoop (loadConst []) resizeId MT_pose_lower imageC2 glassPath
      (RawOut.nums [])).warned = true :=
  spec_C10 drawNoop (loadConst []) resizeId MT_pose_lower imageC2 glassPath (RawOut.nums [])
    (by decide) (by decide) (by decide) (by decide) (by decide) (by decide)

/-- C6: the overlay scale of app.py line 117 is the square root of
`glass_scale_sq`, the sum of squared differences of the coordinates at
flat indices (36,37) and (68,69); for point36 = (0,0), point68 = (3,4)
the squared scale is 25 and the computed scale is exactly 5. -/
theorem spec_C6 (xs : List ℤ) (h36 : xs.getD 36 0 = 0) (h37 : xs.getD 37 0 = 0)
    (h68 : xs.getD 68 0 = 3) (h69 : xs.getD 69 0 = 4) :
    glass_scale_sq xs = 25 ∧ Real.sqrt ((glass_scale_sq xs : ℤ) : ℝ) = 5 := by
  have h : glass_scale_sq xs = 25 := by
    rw [glass_scale_sq, h36, h37, h68, h69]
    norm_num
  refine ⟨h, ?_⟩
  rw [h]
  rw [show (((25 : ℤ) : ℝ)) = 5 ^ 2 by norm_num]
  exact Real.sqrt_sq (by norm_num)

/-- C6 witness: the concrete 70-entry landmark list realises the 3-4-5
triangle. -/
theorem spec_C6_witness :
    glass_scale_sq demoOut36 = 25 ∧ Real.sqrt ((glass_scale_sq demoOut36 : ℤ) : ℝ) = 5 :=
  spec_C6 demoOut36 (by decide) (by decide) (by decide) (by decide)

/-- C2 counterexample: compositing the mask built from the binary map
[[255]] onto the 1×1 image with green sample 1 yields the green sample
256, which is outside the 0..255 sample range — numpy `image + mask`
does not saturate, refuting the range conjunct of the claim. -/
theorem spec_C2_counterexample :
    eltP (composite [[((0 : ℤ), 1, 0)]] [[255]]) 0 0 = (0, 256, 0) ∧
    ¬ (eltP (composite [[((0 : ℤ), 1, 0)]] [[255]]) 0 0).2.1 ≤ 255 := by decide

/-- C7: the GLASS overlay has no bounds guard. With the asset placed
one row above the top edge (translation_vertical = -1) the numpy write
`image[i + tv, j + th] = ...` wraps the negative row index around to
the BOTTOM row of the 2×2 image and the call returns success — no
OverlayBoundsError is raised and a pixel is written outside the
computed placement, at the wrapped position (1,0). -/
theorem spec_C7_eval :
    create_output_image drawNoop (loadConst glassesC7) resizeId MT_GLASS imageC7 glassPath
        (RawOut.nums outputC7) =
      ⟨Except.ok [[(0, 0, 0), (0, 0, 0)], [(10, 20, 30), (0, 0, 0)]],
        [[(0, 0, 0), (0, 0, 0)], [(10, 20, 30), (0, 0, 0)]], false⟩ ∧
    eltP imageC7 1 0 = (0, 0, 0) ∧
    eltP [[(0, 0, 0), (0, 0, 0)], [((10 : ℤ), 20, 30), (0, 0, 0)]] 1 0 = (10, 20, 30) := by
  refine ⟨?_, by decide, by decide⟩
  rfl

/-- C8: the orchestrator's bare try/except swallows render failures and
falls back to the caller's buffer. On a 1×1 image the GLASS loop writes
pixel (0,0), then raises IndexError on the second asset pixel; the
dispatcher surfaces the error, but `perform_inference` catches it and
saves the PARTIALLY OVERWRITTEN buffer [[(10,20,30)]] ≠ [[(0,0,0)]]. -/
theorem spec_C8_eval :
    (create_output_image drawNoop (loadConst glassesC8) resizeId MT_GLASS imageC8 glassPath
      (RawOut.nums outputGlassCentered)).ret = Except.error RenderErr.indexError ∧
    perform_inference_render (create_output_image drawNoop (loadConst glassesC8) resizeId
      MT_GLASS imageC8 glassPath (RawOut.nums outputGlassCentered)) = ([[(10, 20, 30)]], false) ∧
    ([[((10 : ℤ), 20, 30)]] : Image) ≠ imageC8 := by
  refine ⟨?_, ?_, by decide⟩
  · rfl
  · rfl

/-- C9 counterexample: a GLASS render writes the asset pixels directly
into the caller's image buffer (the `np.copy` of app.py line 115 is
never used): after the call the buffer differs from the input image,
refuting "a call to render does not mutate its input image buffer". -/
theorem spec_C9_counterexample :
    (create_output_image drawNoop (loadConst glassesC9) resizeId MT_GLASS imageC9 glassPath
      (RawOut.nums outputGlassCentered)).buf ≠ imageC9 := by decide

lemma isqrtGo_eq_sqrt (n : ℕ) : ∀ fuel : ℕ, Nat.sqrt n ≤ fuel → isqrtGo fuel n = Nat.sqrt n := by
  intro fuel
  induction fuel with
  | zero => intro h; simpa [isqrtGo] using (Nat.le_zero.mp h).symm
  | succ k ih =>
    intro h
    rw [isqrtGo]
    split_ifs with hk
    · have h1 : k + 1 ≤ Nat.sqrt n := Nat.le_sqrt.mpr (by simpa [Nat.succ_mul] using hk)
      omega
    · exact ih (by
        have h2 : Nat.sqrt n < k + 1 := Nat.sqrt_lt.mpr (by omega)
        omega)

/-- `isqrt` agrees with `Nat.sqrt`: it really is `int(n ** 0.5)`. -/
lemma isqrt_eq_sqrt (n : ℕ) : isqrt n = Nat.sqrt n :=
  isqrtGo_eq_sqrt n n (Nat.sqrt_le_self n)

/-- The cutoff constant of the code, 0.5, in the two spellings used in
this file. -/
lemma mkRat_half : mkRat 1 2 = (1 : ℚ) / 2 := by
  rw [Rat.mkRat_eq_div]
  norm_num

/-- C9 amended: the POSE and TEXT branches build a new array
(`image + mask`) and the unknown-tag fallback returns the image as is,
so those calls leave the caller's image buffer unchanged; the FACIAL,
GLASS, CAR_META and GENDER branches instead hand the caller's buffer to
in-place drawing (or, for GLASS, write pixels into it directly), so a
render may mutate its input image buffer (see the counterexample). -/
theorem spec_C9_amended (draw : Image → DrawCmd → Image) (loadAsset : String → Glasses)
    (resize : Glasses → ℕ → ℕ → Glasses) (tag : String) (image : Image) (glass : String)
    (output : RawOut)
    (h : tag = "POSE" ∨ tag = "TEXT" ∨ tag ∉ ["POSE", "TEXT", "CAR_META", "FACIAL", "GLASS", "GENDER"]) :
    (create_output_image draw loadAsset resize tag image glass output).buf = image := by
  rcases h with h | h | h
  · subst h
    cases output with
    | maps stack =>
      have hP : ("POSE" : String) = "POSE" := rfl
      simp only [create_output_image, if_pos hP]
      split_ifs <;> rfl
    | nums xs => rfl
  · subst h
    cases output with
    | maps stack =>
      have hTP : ("TEXT" : String) ≠ "POSE" := by decide
      have hT : ("TEXT" : String) = "TEXT" := rfl
      simp only [create_output_image, if_neg hTP, if_pos hT]
      rcases htp : textProcess stack with _ | processed
      · rfl
      · simp only [if_true]
        split_ifs <;> rfl
    | nums xs => rfl
  · rw [spec_C3 draw loadAsset resize tag image glass output h]

/-- C9 amended witness: a TEXT call leaves the caller's buffer intact. -/
theorem spec_C9_amended_witness :
    (create_output_image drawNoop (loadConst []) resizeId MT_TEXT imageC2 glassPath
      (RawOut.maps demoStack)).buf = imageC2 :=
  spec_C9_amended drawNoop (loadConst []) resizeId MT_TEXT imageC2 glassPath
    (RawOut.maps demoStack) (Or.inr (Or.inl rfl))

/-- C4 counterexample: the claim says the decoders fail with an
out-of-range error for EVERY negative index, but Python list subscripts
accept negative indices down to -len: `decodeCarMeta (-1) 0` succeeds
and returns ("black", "car") instead of failing. -/
theorem spec_C4_counterexample :
    decodeCarMeta (-1) 0 = Except.ok ("black", "car") := by decide

/-- C4 amended: the decoders are pure table lookups over CAR_COLORS
(7 entries), CAR_TYPES (4 entries) and GENDER_TYPES (2 entries); they
fail with an index error exactly when an index falls outside
[-len, len); indices in [0, len) return the corresponding label (in
particular decodeCarMeta 0 0 = ("white", "car") and
decodeGender 25 1 = (25, "male")), and negative indices in [-len, 0)
do NOT fail — they return the label at index + len. -/
theorem spec_C4_amended :
    (decodeCarMeta 0 0 = Except.ok ("white", "car")) ∧
    (decodeGender 25 1 = Except.ok (25, "male")) ∧
    (∀ c t : ℤ, decodeCarMeta c t = Except.error RenderErr.indexError ↔
      (c < -7 ∨ 7 ≤ c ∨ t < -4 ∨ 4 ≤ t)) ∧
    (∀ a g : ℤ, decodeGender a g = Except.error RenderErr.indexError ↔ (g < -2 ∨ 2 ≤ g)) ∧
    (∀ c t : ℤ, 0 ≤ c → c < 7 → 0 ≤ t → t < 4 →
      decodeCarMeta c t = Except.ok (CAR_COLORS.getD c.toNat "", CAR_TYPES.getD t.toNat "")) ∧
    (∀ c t : ℤ, -7 ≤ c → c < 0 → 0 ≤ t → t < 4 →
      decodeCarMeta c t = Except.ok (CAR_COLORS.getD (c + 7).toNat "", CAR_TYPES.getD t.toNat "")) := by
  have hcolors : (CAR_COLORS.length : ℤ) = 7 := by decide
  have htypes : (CAR_TYPES.length : ℤ) = 4 := by decide
  have hgender : (GENDER_TYPES.length : ℤ) = 2 := by decide
  refine ⟨by decide, by decide, ?_, ?_, ?_, ?_⟩
  · intro c t
    unfold decodeCarMeta
    rcases hc : pyListGet CAR_COLORS c with _ | color
    · rw [pyListGet_eq_none_iff, hcolors] at hc
      simp only [Except.error.injEq, true_iff, iff_true]
      omega
    · have hc2 : ¬ (c < -7 ∨ 7 ≤ c) := by
        intro hcon
        have hnone : pyListGet CAR_COLORS c = none := by
          rw [pyListGet_eq_none_iff, hcolors]
          omega
        rw [hnone] at hc
        cases hc
      rcases ht : pyListGet CAR_TYPES t with _ | car_type
      · rw [pyListGet_eq_none_iff, htypes] at ht
        simp only [Except.error.injEq, true_iff, iff_true]
        omega
      · have ht2 : ¬ (t < -4 ∨ 4 ≤ t) := by
          intro hcon
          have hnone : pyListGet CAR_TYPES t = none := by
            rw [pyListGet_eq_none_iff, htypes]
            omega
          rw [hnone] at ht
          cases ht
        simp only [reduceCtorEq, false_iff]
        omega
  · intro a g
    unfold decodeGender
    rcases hg : pyListGet GENDER_TYPES g with _ | gender_type
    · rw [pyListGet_eq_none_iff, hgender] at hg
      simp only [Except.error.injEq, true_iff, iff_true]
      omega
    · have hg2 : ¬ (g < -2 ∨ 2 ≤ g) := by
        intro hcon
        have hnone : pyListGet GENDER_TYPES g = none := by
          rw [pyListGet_eq_none_iff, hgender]
          omega
        rw [hnone] at hg
        cases hg
      simp only [reduceCtorEq, false_iff]
      omega
  · intro c t hc0 hc7 ht0 ht4
    unfold decodeCarMeta pyListGet
    rw [if_pos (by omega : 0 ≤ c ∧ c < (CAR_COLORS.length : ℤ))]
    rw [if_pos (by omega : 0 ≤ t ∧ t < (CAR_TYPES.length : ℤ))]
    rw [List.get?_eq_get (by omega : c.toNat < CAR_COLORS.length)]
    rw [List.get?_eq_get (by omega : t.toNat < CAR_TYPES.length)]
    simp [List.getD_eq_get?, List.get?_eq_get, (by omega : c.toNat < CAR_COLORS.length),
      (by omega : t.toNat < CAR_TYPES.length)]
  · intro c t hc0 hc7 ht0 ht4
    unfold decodeCarMeta pyListGet
    rw [if_neg (by omega : ¬ (0 ≤ c ∧ c < (CAR_COLORS.length : ℤ)))]
    rw [if_pos (by omega : -(CAR_COLORS.length : ℤ) ≤ c ∧ c < 0)]
    rw [if_pos (by omega : 0 ≤ t ∧ t < (CAR_TYPES.length : ℤ))]
    rw [List.get?_eq_get (by omega : (c + (CAR_COLORS.length : ℤ)).toNat < CAR_COLORS.length)]
    rw [List.get?_eq_get (by omega : t.toNat < CAR_TYPES.length)]
    have h7 : ((CAR_COLORS.length : ℤ)) = 7 := by decide
    simp [List.getD_eq_get?, List.get?_eq_get, h7,
      (by omega : (c + (7 : ℤ)).toNat < CAR_COLORS.length),
      (by omega : t.toNat < CAR_TYPES.length)]

/-- C4 amended witness: index 7 on colors fails, index -7 wraps to
"white", the in-range lookups return their labels. -/
theorem spec_C4_amended_witness :
    (decodeCarMeta 7 0 = Except.error RenderErr.indexError) ∧
    (decodeCarMeta (-7) 0 = Except.ok (CAR_COLORS.getD ((-7 : ℤ) + 7).toNat "", CAR_TYPES.getD (0 : ℤ).toNat "")) ∧
    (decodeGender 0 2 = Except.error RenderErr.indexError) ∧
    (decodeCarMeta 6 3 = Except.ok (CAR_COLORS.getD (6 : ℤ).toNat "", CAR_TYPES.getD (3 : ℤ).toNat "")) :=
  ⟨(spec_C4_amended.2.2.1 7 0).mpr (by omega),
    spec_C4_amended.2.2.2.2.2 (-7) 0 (by omega) (by omega) (by omega) (by omega),
    (spec_C4_amended.2.2.2.1 0 2).mpr (by omega),
    spec_C4_amended.2.2.2.2.1 6 3 (by omega) (by omega) (by omega) (by omega)⟩

lemma facialStep_even_cmds : ∀ (pts : List ℤ) (k : ℕ), pts.length % 2 = 0 →
    (facialStep pts k).2 = false ∧
    (facialStep pts k).1 = (List.range (pts.length / 2)).bind (fun m =>
      [DrawCmd.circle (pts.getD (2 * m) 0, pts.getD (2 * m + 1) 0) 4 (255, 0, 0) (-1),
       DrawCmd.text ("p" ++ toString (k + m)) (pts.getD (2 * m) 0, pts.getD (2 * m + 1) 0)
         (mkRat 7 10) (255, 255, 255) 2]) := by
  intro pts k
  induction pts, k using facialStep.induct with
  | case1 k => simp [facialStep]
  | case2 x k =>
    intro h
    simp at h
  | case3 x y rest k ih =>
    intro h
    have hr : rest.length % 2 = 0 := by
      simp only [List.length_cons] at h
      omega
    obtain ⟨ih1, ih2⟩ := ih hr
    have hlen : (x :: y :: rest).length / 2 = rest.length / 2 + 1 := by
      simp only [List.length_cons]
      omega
    constructor
    · simp only [facialStep, ih1]
    · simp only [facialStep, ih2, hlen, List.range_succ_eq_map, List.cons_bind, List.bind_map]
      refine congrArg₂ _ rfl (congrArg₂ _ rfl ?_)
      apply List.bind_congr
      intro m _
      have e2 : 2 * (m + 1) = 2 * m + 1 + 1 := by omega
      have e3 : k + (m + 1) = k + 1 + m := by omega
      simp only [Function.comp_apply, Nat.succ_eq_add_one, e2, e3, List.getD_cons_succ]

lemma facialStep_odd : ∀ (pts : List ℤ) (k : ℕ), pts.length % 2 = 1 →
    (facialStep pts k).2 = true := by
  intro pts k
  induction pts, k using facialStep.induct with
  | case1 k => simp
  | case2 x k => simp [facialStep]
  | case3 x y rest k ih =>
    intro h
    have hr : rest.length % 2 = 1 := by
      simp only [List.length_cons] at h
      omega
    simp only [facialStep, ih hr]

/-- C5: for a landmark list of even length 2N the FACIAL renderer
issues, in order, for each k < N a filled circle (thickness -1) of
radius 4 at the consecutive pair (pts[2k], pts[2k+1]) followed by the
text label "p" ++ k anchored at the same point (font scale 0.7, fixed
color), so exactly N markers with labels p0 .. p(N-1), and the render
returns normally; for odd length the loop hits the missing pts[i+1]
and the render fails with the index error (the spec's
OddLandmarkCountError). -/
theorem spec_C5 (pts : List ℤ) :
    (pts.length % 2 = 0 →
      (facialStep pts 0).2 = false ∧
      (facialStep pts 0).1 = (List.range (pts.length / 2)).bind (fun k =>
        [DrawCmd.circle (pts.getD (2 * k) 0, pts.getD (2 * k + 1) 0) 4 (255, 0, 0) (-1),
         DrawCmd.text ("p" ++ toString k) (pts.getD (2 * k) 0, pts.getD (2 * k + 1) 0)
           (mkRat 7 10) (255, 255, 255) 2])) ∧
    (pts.length % 2 = 1 → (facialStep pts 0).2 = true) ∧
    (∀ (draw : Image → DrawCmd → Image) (loadAsset : String → Glasses)
      (resize : Glasses → ℕ → ℕ → Glasses) (image : Image) (glass : String),
      (create_output_image draw loadAsset resize MT_FACIAL image glass (RawOut.nums pts)).ret =
        if pts.length % 2 = 1 then Except.error RenderErr.indexError
        else Except.ok ((facialStep pts 0).1.foldl draw image)) := by
  refine ⟨?_, facialStep_odd pts 0, ?_⟩
  · intro h
    have := facialStep_even_cmds pts 0 h
    simpa using this
  · intro draw loadAsset resize image glass
    have h1 : ("FACIAL" : String) ≠ "POSE" := by decide
    have h2 : ("FACIAL" : String) ≠ "TEXT" := by decide
    have h3 : ("FACIAL" : String) ≠ "CAR_META" := by decide
    have h4 : ("FACIAL" : String) = "FACIAL" := rfl
    simp only [MT_FACIAL, create_output_image, if_neg h1, if_neg h2, if_neg h3, if_pos h4]
    by_cases hodd : pts.length % 2 = 1
    · rw [if_pos hodd]
      have ht := facialStep_odd pts 0 hodd
      simp [ht]
    · rw [if_neg hodd]
      have heven : pts.length % 2 = 0 := by omega
      have hf := (facialStep_even_cmds pts 0 heven).1
      simp [hf]

/-- C5 witness: on [10,10,20,20] exactly two markers are drawn, p0 at
(10,10) and p1 at (20,20); on the odd-length [1,2,3] the loop errors. -/
theorem spec_C5_witness :
    ((facialStep [(10 : ℤ), 10, 20, 20] 0).2 = false ∧
      (facialStep [(10 : ℤ), 10, 20, 20] 0).1 =
        (List.range ((4 : ℕ) / 2)).bind (fun k =>
          [DrawCmd.circle ([(10 : ℤ), 10, 20, 20].getD (2 * k) 0,
              [(10 : ℤ), 10, 20, 20].getD (2 * k + 1) 0) 4 (255, 0, 0) (-1),
           DrawCmd.text ("p" ++ toString k) ([(10 : ℤ), 10, 20, 20].getD (2 * k) 0,
              [(10 : ℤ), 10, 20, 20].getD (2 * k + 1) 0) (mkRat 7 10) (255, 255, 255) 2])) ∧
    ((facialStep [(1 : ℤ), 2, 3] 0).2 = true) :=
  ⟨(spec_C5 [10, 10, 20, 20]).1 (by decide), (spec_C5 [1, 2, 3]).2.1 (by decide)⟩

lemma length_thresholdMap (c : ℚ) (m : List (List ℚ)) :
    (thresholdMap c m).length = m.length := by
  simp [thresholdMap]

lemma row_thresholdMap (c : ℚ) (m : List (List ℚ)) (i : ℕ) (h : i < m.length) :
    (thresholdMap c m).getD i [] =
      (m.getD i []).map (fun v => if v > c then (255 : ℤ) else 0) := by
  unfold thresholdMap
  exact getD_map_of_lt _ m i h [] []

lemma inB_thresholdMap (c : ℚ) (m : List (List ℚ)) (i j : ℕ) (h : inB m i j) :
    inB (thresholdMap c m) i j := by
  refine ⟨by rw [length_thresholdMap]; exact h.1, ?_⟩
  rw [row_thresholdMap c m i h.1, List.length_map]
  exact h.2

lemma eltZ_thresholdMap (c : ℚ) (m : List (List ℚ)) (i j : ℕ) (h : inB m i j) :
    eltZ (thresholdMap c m) i j = if eltQ m i j > c then 255 else 0 := by
  unfold eltZ eltQ
  rw [row_thresholdMap c m i h.1]
  exact getD_map_of_lt _ _ j h.2 0 0

lemma length_add2 (a b : List (List ℤ)) : (add2 a b).length = min a.length b.length := by
  simp [add2]

lemma row_add2 (a b : List (List ℤ)) (i : ℕ) (ha : i < a.length) (hb : i < b.length) :
    (add2 a b).getD i [] = List.zipWith (fun x y => x + y) (a.getD i []) (b.getD i []) := by
  unfold add2
  exact getD_zipWith_of_lt _ a b i ha hb [] [] []

lemma inB_add2 (a b : List (List ℤ)) (i j : ℕ) (ha : inB a i j) (hb : inB b i j) :
    inB (add2 a b) i j := by
  obtain ⟨ha1, ha2⟩ := ha
  obtain ⟨hb1, hb2⟩ := hb
  refine ⟨by rw [length_add2]; omega, ?_⟩
  rw [row_add2 a b i ha1 hb1, List.length_zipWith]
  omega

lemma eltZ_add2 (a b : List (List ℤ)) (i j : ℕ) (ha : inB a i j) (hb : inB b i j) :
    eltZ (add2 a b) i j = eltZ a i j + eltZ b i j := by
  unfold eltZ
  rw [row_add2 a b i ha.1 hb.1]
  exact getD_zipWith_of_lt _ _ _ j ha.2 hb.2 0 0 0

lemma eltZ_foldl_add2 (L : List (List (List ℤ))) :
    ∀ (acc : List (List ℤ)) (i j : ℕ), inB acc i j → (∀ ch ∈ L, inB ch i j) →
      eltZ (L.foldl add2 acc) i j = eltZ acc i j + (L.map (fun ch => eltZ ch i j)).sum := by
  induction L with
  | nil => simp
  | cons h t ih =>
    intro acc i j hacc hall
    have hh : inB h i j := hall h (List.mem_cons_self h t)
    have ht : ∀ ch ∈ t, inB ch i j := fun ch hch => hall ch (List.mem_cons_of_mem h hch)
    simp only [List.foldl_cons, List.map_cons, List.sum_cons]
    rw [ih (add2 acc h) i j (inB_add2 acc h i j hacc hh) ht, eltZ_add2 acc h i j hacc hh]
    ring

lemma eltZ_sumStack (L : List (List (List ℤ))) (i j : ℕ) (hL : ∀ ch ∈ L, inB ch i j) :
    eltZ (sumStack L) i j = (L.map (fun ch => eltZ ch i j)).sum := by
  cases L with
  | nil => simp [sumStack, eltZ]
  | cons h t =>
    have hh : inB h i j := hL h (List.mem_cons_self h t)
    have ht : ∀ ch ∈ t, inB ch i j := fun ch hch => hL ch (List.mem_cons_of_mem h hch)
    rw [show sumStack (h :: t) = t.foldl add2 h from rfl,
      eltZ_foldl_add2 t h i j hh ht]
    simp

lemma length_get_mask (po : List (List ℤ)) : (get_mask po).length = po.length := by
  simp [get_mask]

lemma row_get_mask (po : List (List ℤ)) (i : ℕ) (h : i < po.length) :
    (get_mask po).getD i [] = (po.getD i []).map (fun v => ((0 : ℤ), v, (0 : ℤ))) := by
  unfold get_mask
  exact getD_map_of_lt _ po i h [] []

lemma eltP_get_mask (po : List (List ℤ)) (i j : ℕ) (h : inB po i j) :
    eltP (get_mask po) i j = (0, eltZ po i j, 0) := by
  unfold eltP eltZ
  rw [row_get_mask po i h.1]
  exact getD_map_of_lt _ _ j h.2 0 (0, 0, 0)

lemma eltP_composite (image : Image) (po : List (List ℤ)) (i j : ℕ)
    (hi : inB image i j) (hp : inB po i j) :
    eltP (composite image po) i j =
      ((eltP image i j).1, (eltP image i j).2.1 + eltZ po i j, (eltP image i j).2.2) := by
  have hm : inB (get_mask po) i j := by
    refine ⟨by rw [length_get_mask]; exact hp.1, ?_⟩
    rw [row_get_mask po i hp.1, List.length_map]
    exact hp.2
  unfold composite addImage
  unfold eltP
  rw [getD_zipWith_of_lt _ image (get_mask po) i hi.1 hm.1 [] [] []]
  rw [getD_zipWith_of_lt _ _ _ j hi.2 hm.2 (0, 0, 0) (0, 0, 0) (0, 0, 0)]
  have hmask := eltP_get_mask po i j hp
  unfold eltP at hmask
  rw [hmask]
  simp

/-- C1: thresholding maps an element to 255 exactly when it is
strictly greater than the 0.5 cutoff and to 0 otherwise (exactly 0.5
gives 0); the POSE decoding drops the last channel of the stack,
thresholds each remaining channel and sums elementwise across channels
into one map; the TEXT decoding thresholds only channel index 1. -/
theorem spec_C1 (stack : List (List (List ℚ))) (m : List (List ℚ)) (i j : ℕ)
    (hm : inB m i j) (hstack : ∀ ch ∈ stack.dropLast, inB ch i j) :
    (eltZ (thresholdMap (mkRat 1 2) m) i j = if eltQ m i j > mkRat 1 2 then 255 else 0) ∧
    (eltQ m i j = mkRat 1 2 → eltZ (thresholdMap (mkRat 1 2) m) i j = 0) ∧
    (eltZ (poseProcess stack) i j =
      ((stack.dropLast).map (fun ch => if eltQ ch i j > mkRat 1 2 then (255 : ℤ) else 0)).sum) ∧
    (∀ ch0 ch1 chrest, stack = ch0 :: ch1 :: chrest →
      textProcess stack = some (thresholdMap (mkRat 1 2) ch1)) := by
  refine ⟨eltZ_thresholdMap _ m i j hm, ?_, ?_, ?_⟩
  · intro hhalf
    rw [eltZ_thresholdMap _ m i j hm, hhalf]
    simp
  · unfold poseProcess
    rw [eltZ_sumStack _ i j (by
      intro tch htch
      rcases List.mem_map.mp htch with ⟨ch, hch, rfl⟩
      exact inB_thresholdMap _ ch i j (hstack ch hch))]
    rw [List.map_map]
    refine congrArg List.sum (List.map_congr_left ?_)
    intro ch hch
    exact eltZ_thresholdMap _ ch i j (hstack ch hch)
  · intro ch0 ch1 chrest h
    subst h
    rfl

/-- C1 witness: at (0,1) of the demo stack the first two channels read
0.5 and 0.7, so they threshold to 0 and 255 and sum to 255; the demo
map reads exactly 0.5 there and thresholds to 0; the second conjunct
evaluates the POSE pipeline concretely at (0,0): 0.6 and 0.7 both
exceed the cutoff, so the merged mask holds 510 from the two kept
channels (the third, dropped channel does not contribute). -/
theorem spec_C1_witness :
    ((eltZ (thresholdMap (mkRat 1 2) demoMap) 0 1 =
        if eltQ demoMap 0 1 > mkRat 1 2 then 255 else 0) ∧
      (eltQ demoMap 0 1 = mkRat 1 2 → eltZ (thresholdMap (mkRat 1 2) demoMap) 0 1 = 0) ∧
      (eltZ (poseProcess demoStack) 0 1 =
        ((demoStack.dropLast).map
          (fun ch => if eltQ ch 0 1 > mkRat 1 2 then (255 : ℤ) else 0)).sum) ∧
      (∀ ch0 ch1 chrest, demoStack = ch0 :: ch1 :: chrest →
        textProcess demoStack = some (thresholdMap (mkRat 1 2) ch1))) ∧
    eltZ (poseProcess demoStack) 0 0 = 510 ∧
    eltZ (poseProcess demoStack) 0 1 = 255 ∧
    eltZ (thresholdMap (mkRat 1 2) demoMap) 0 1 = 0 :=
  ⟨spec_C1 demoStack demoMap 0 1 (by decide) (by decide), by decide, by decide, by decide⟩

lemma getD_mem_of_lt {α : Type} (l : List α) (n : ℕ) (d : α) (h : n < l.length) :
    l.getD n d ∈ l := by
  induction l generalizing n with
  | nil => simp at h
  | cons a t ih =>
    cases n with
    | zero => simp
    | succ k =>
      simp only [List.getD_cons_succ]
      exact List.mem_cons_of_mem a (ih k (by simpa using h))

/-- C2 amended: for a base image and a binary (0/255) thresholded map
of the same spatial dimensions, compositing the green mask changes
only the green channel, and only at positions where the map is 255:
there the green sample becomes the input green sample + 255 (numpy
addition does not saturate, so this may exceed 255 — see the
counterexample); the red and blue channels there, and all three
channels where the map is 0, equal the input image's values. -/
theorem spec_C2_amended (image : Image) (po : List (List ℤ)) (i j : ℕ)
    (hdim : dimsOf image = dimsOf po)
    (hbin : ∀ row ∈ po, ∀ v ∈ row, v = 0 ∨ v = 255)
    (hi : i < image.length) (hj : j < (image.getD i []).length) :
    ((eltP (composite image po) i j).1 = (eltP image i j).1) ∧
    ((eltP (composite image po) i j).2.2 = (eltP image i j).2.2) ∧
    (eltZ po i j = 255 →
      (eltP (composite image po) i j).2.1 = (eltP image i j).2.1 + 255) ∧
    (eltZ po i j = 0 → eltP (composite image po) i j = eltP image i j) ∧
    (eltZ po i j = 0 ∨ eltZ po i j = 255) := by
  have hlen : po.length = image.length := by
    have := congrArg List.length hdim
    simpa [dimsOf] using this.symm
  have hrow : (po.getD i []).length = (image.getD i []).length := by
    have h2 := congrArg (fun l => l.getD i 0) hdim
    simp only [dimsOf] at h2
    rw [getD_map_of_lt _ image i hi [] 0, getD_map_of_lt _ po i (by omega) [] 0] at h2
    omega
  have hp : inB po i j := ⟨by omega, by omega⟩
  have hii : inB image i j := ⟨hi, hj⟩
  have hcp := eltP_composite image po i j hii hp
  have hval : eltZ po i j = 0 ∨ eltZ po i j = 255 := by
    have hmem : po.getD i [] ∈ po := getD_mem_of_lt po i [] (by omega)
    have hmem2 : (po.getD i []).getD j 0 ∈ po.getD i [] := getD_mem_of_lt _ j 0 (by omega)
    exact hbin (po.getD i []) hmem ((po.getD i []).getD j 0) hmem2
  refine ⟨by rw [hcp], by rw [hcp], ?_, ?_, hval⟩
  · intro h255
    rw [hcp, h255]
  · intro h0
    rw [hcp, h0]
    simp

/-- C2 amended witness: on the 1×2 image with map [[0, 255]], the pixel
under a 0 entry is untouched and the pixel under a 255 entry gains
exactly 255 on the green channel only. -/
theorem spec_C2_amended_witness :
    (((eltP (composite imageC2 poC2) 0 1).1 = (eltP imageC2 0 1).1) ∧
      ((eltP (composite imageC2 poC2) 0 1).2.2 = (eltP imageC2 0 1).2.2) ∧
      (eltZ poC2 0 1 = 255 →
        (eltP (composite imageC2 poC2) 0 1).2.1 = (eltP imageC2 0 1).2.1 + 255) ∧
      (eltZ poC2 0 1 = 0 → eltP (composite imageC2 poC2) 0 1 = eltP imageC2 0 1) ∧
      (eltZ poC2 0 1 = 0 ∨ eltZ poC2 0 1 = 255)) ∧
    eltP (composite imageC2 poC2) 0 0 = (1, 2, 3) ∧
    eltP (composite imageC2 poC2) 0 1 = (4, 260, 6) :=
  ⟨spec_C2_amended imageC2 poC2 0 1 (by decide) (by decide) (by decide) (by decide),
    by decide, by decide⟩
